import Mathlib

/-!
Verification of the kgrid repository: a Kraken exchange HTTP client
(`src/kraken_api.py`) and a geometric grid-trading ladder calculator
(`src/grid.py`), checked against its natural-language specification.

Python `Decimal` values are embedded by their exact rational value (`ℚ`),
and every `Decimal` operation the program performs — addition,
multiplication, integer exponentiation and division — is embedded with
the rounding of Python's default decimal context: the exact result is
correctly rounded to 28 significant digits with round-half-even
(`decRound`, `decAdd`, `decMul`, `decPow`, `decDiv` below).  An operation
whose exact result fits in 28 significant digits is therefore exact, and
one whose result does not (such as `1 + Decimal("1E-40")`, or any
quotient like `1/3` with no finite decimal form) is rounded, as in the
program.

Python exceptions are embedded with an explicit result type (`PyResult`):
a Python function either returns a value or raises an error.
-/

/-! ## Python `Decimal` division (default context: 28 digits, half-even) -/

/-- Decimal digit counting with explicit fuel (structural recursion). -/
def digitCountAux : ℕ → ℕ → ℕ
  | 0, _ => 1
  | fuel + 1, n => if n < 10 then 1 else digitCountAux fuel (n / 10) + 1

/-- Number of decimal digits of a natural number (1 for 0). -/
def natDigitCount (n : ℕ) : ℕ := digitCountAux n n

/-- Floor of `log₁₀ q` for a positive rational: for `q ≥ 1` one less than the
digit count of `⌊q⌋`; for `q < 1` the negated `⌈log₁₀ q⁻¹⌉`, which is the
digit count of `⌈q⁻¹⌉ - 1`. -/
def floorLog10Q (q : ℚ) : ℤ :=
  if 1 ≤ q then (natDigitCount ⌊q⌋.toNat : ℤ) - 1
  else -(natDigitCount (⌈q⁻¹⌉ - 1).toNat : ℤ)

/-- Round a nonnegative rational to the nearest integer, ties to even
(`ROUND_HALF_EVEN`, the default rounding of Python's decimal context). -/
def roundHalfEven (x : ℚ) : ℤ :=
  let f := ⌊x⌋
  let r := x - (f : ℚ)
  if r < 1 / 2 then f
  else if 1 / 2 < r then f + 1
  else if f % 2 = 0 then f else f + 1

/-- Value of Python `Decimal.__truediv__` under the default context: the
exact quotient correctly rounded to 28 significant digits, half-even.
Exactly representable quotients (at most 28 significant digits) are
returned exactly.  Division by zero raises in Python; the claims only use
nonzero divisors, so that case is mapped to 0 here. -/
def decDiv (x y : ℚ) : ℚ :=
  if x = 0 ∨ y = 0 then 0
  else
    let q := x / y
    let a := |q|
    let e : ℤ := floorLog10Q a - 27
    let m := roundHalfEven (a * (10 : ℚ) ^ (-e))
    (if q < 0 then -1 else 1) * (m : ℚ) * (10 : ℚ) ^ e

/-- The rounding step of Python's default decimal context, applied by
every arithmetic operation: the exact result correctly rounded to 28
significant digits, half-even (the same rounding `decDiv` applies to the
exact quotient).  A value already representable in 28 significant digits
is returned unchanged. -/
def decRound (x : ℚ) : ℚ :=
  if x = 0 then 0
  else
    let a := |x|
    let e : ℤ := floorLog10Q a - 27
    (if x < 0 then -1 else 1) *
      (roundHalfEven (a * (10 : ℚ) ^ (-e)) : ℚ) * (10 : ℚ) ^ e

/-- Python `Decimal.__add__` under the default context: the exact sum,
rounded to 28 significant digits (so e.g. `1 + Decimal("1E-40")`, whose
exact sum needs 41 significant digits, rounds to exactly `1`). -/
def decAdd (x y : ℚ) : ℚ := decRound (x + y)

/-- Python `Decimal.__mul__` under the default context: the exact
product, rounded to 28 significant digits. -/
def decMul (x y : ℚ) : ℚ := decRound (x * y)

/-- Python `Decimal.__pow__` with a nonnegative integer exponent under
the default context: the exact power, correctly rounded to 28
significant digits (the General Decimal Arithmetic semantics for
integral exponents; exact whenever the power fits in the precision,
and `b ** 0 = 1`). -/
def decPow (b : ℚ) (i : ℕ) : ℚ := decRound (b ^ i)

/-! ## `src/grid.py`: `Rung` and `GridStrategy` -/

/-- Structure `Rung` from `src/grid.py`: a price/volume level, optionally occupied by
an order (identified here by its transaction id). -/
structure Rung where
  price : ℚ
  volume : ℚ
  order : Option String := none
deriving Repr, DecidableEq

/-- Method `GridStrategy._validate_inputs` from `src/grid.py` (lines 101-128):
returns `true` when no `ValueError` is raised, i.e. when
`base_price > 0`, `percentage > 0`, `total_volume > 0` and
`rung_count >= 2` (the code raises on `rung_count < 2`). -/
def validate_inputs (base_price percentage total_volume : ℚ)
    (rung_count : ℤ) : Bool :=
  decide (0 < base_price) && decide (0 < percentage) &&
    decide (0 < total_volume) && decide (2 ≤ rung_count)

/-- The rung-building loop shared by `GridStrategy.__init__`
(`src/grid.py` lines 93-99) and `GridStrategy.create_rungs` (lines
151-157): for `i in range(rung_count)`, append a rung with
`price = base_price * ((1 + percentage) ** i)` and
`volume = total_volume / rung_count`, every `Decimal` operation rounding
to the default 28-significant-digit context (`decAdd`, `decPow`,
`decMul`, `decDiv`). -/
def build_rungs (base_price percentage total_volume : ℚ)
    (rung_count : ℤ) : List Rung :=
  (List.range rung_count.toNat).map fun i =>
    { price := decMul base_price (decPow (decAdd 1 percentage) i)
      volume := decDiv total_volume (rung_count : ℚ)
      order := none }

/-- Method `GridStrategy.create_rungs` from `src/grid.py` (lines 148-157):
re-validates the parameters (raising `ValueError`, modelled as `none`, on
a violation), clears the ladder, and rebuilds it with the shared loop.
`GridStrategy.__init__` runs the same validation followed by the same
loop, so a successful construction leaves the same ladder. -/
def create_rungs (base_price percentage total_volume : ℚ)
    (rung_count : ℤ) : Option (List Rung) :=
  if validate_inputs base_price percentage total_volume rung_count then
    some (build_rungs base_price percentage total_volume rung_count)
  else
    none

/-- The ladder shape asserted by claim C1: after a successful
(re)generation there are exactly `rung_count` rungs, rung `i` has price
`base_price * (1 + percentage) ^ i` exactly, the first rung sits at
`base_price`, and adjacent rung prices strictly increase. -/
def LadderSpec (base_price percentage total_volume : ℚ)
    (rung_count : ℤ) : Prop :=
  ∃ rungs : List Rung,
    create_rungs base_price percentage total_volume rung_count =
      some rungs ∧
    (rungs.length : ℤ) = rung_count ∧
    (∀ (i : ℕ) (h : i < rungs.length),
      (rungs.get ⟨i, h⟩).price = base_price * (1 + percentage) ^ i) ∧
    (∀ h : 0 < rungs.length, (rungs.get ⟨0, h⟩).price = base_price) ∧
    (∀ (i : ℕ) (h1 : i < rungs.length) (h2 : i + 1 < rungs.length),
      (rungs.get ⟨i, h1⟩).price < (rungs.get ⟨i + 1, h2⟩).price)

/-- Record `TickerInfo` from `src/kraken_api.py` (lines 131-141), restricted to
the fields `GridStrategy` reads: `a` (ask array) and `b` (bid array),
whose first entries are the best ask and best bid prices. -/
structure TickerInfo where
  a : List ℚ
  b : List ℚ
deriving Repr, DecidableEq

/-- The `GridStrategy` state read and written by `update_price`:
the ladder and the latest ask/bid snapshot. -/
structure GridState where
  rungs : List Rung
  current_ask : ℚ
  current_bid : ℚ
deriving Repr, DecidableEq

/-! ## `src/kraken_api.py`: exceptions and the response envelope -/

/-- The Python exceptions raised by `BaseAPI`'s request pipeline and its
callers.  In the spec's taxonomy, `requestException` on a non-empty error
array is `ExchangeError` and `valueError` on a missing/empty result is
`MalformedResponseError`. -/
inductive PyError where
  | requestException (msg : String)
  | valueError (msg : String)
  | timeoutError (msg : String)
  | attributeError (msg : String)
deriving Repr, DecidableEq

/-- Outcome of a Python call: it either returns a value or raises. -/
inductive PyResult (α : Type) where
  | returned (v : α)
  | raised (e : PyError)
deriving Repr, DecidableEq

/-- The `result` object of a response envelope, as a JSON object:
a list of key/value pairs (values kept abstract as strings). -/
def ResultMap := List (String × String)
deriving instance Repr, DecidableEq for ResultMap

/-- The exchange's `{error, result}` response envelope.  A `result` key
that is absent is `none`; a present-but-empty object is `some []`.
The whole response being `None` (or an empty, falsy dict) is modelled as
`none` at the use site. -/
structure ResponseEnvelope where
  error : List String
  result : Option ResultMap
deriving Repr, DecidableEq

/-- Python truthiness of `response.get("result")`: a present, non-empty
object. -/
def truthyResult : Option ResultMap → Bool
  | none => false
  | some m => !m.isEmpty

/-- Method `BaseAPI._process_response` from `src/kraken_api.py` (lines 409-419):
raises `ValueError` on a falsy response, `RequestException` with the
comma-joined error strings when `error` is non-empty, `ValueError` when
`result` is absent or empty, and otherwise returns the result object. -/
def process_response (response : Option ResponseEnvelope) :
    PyResult ResultMap :=
  match response with
  | none => .raised (.valueError "No response received from API")
  | some env =>
    if !env.error.isEmpty then
      .raised (.requestException
        ("API error: " ++ String.intercalate ", " env.error))
    else if !truthyResult env.result then
      .raised (.valueError "Invalid response format")
    else
      .returned (env.result.getD [])

/-- What the HTTP transport did for one request, seen from
`BaseAPI._create_signed_request`: a timeout, a connection failure, a
non-JSON body (all raised as `requests.exceptions.RequestException`
subclasses by `requests`), or a parsed JSON response. -/
inductive TransportOutcome where
  | timeout
  | connectionError
  | nonJsonBody
  | ok (response : Option ResponseEnvelope)
deriving Repr, DecidableEq

/-- Method `BaseAPI._create_signed_request` from `src/kraken_api.py` (lines
374-391): on success returns the parsed JSON response; every
`RequestException` (timeouts and connection errors included —
`requests.exceptions.Timeout` is a `RequestException` subclass, so the
later `except Timeout` clause is unreachable) is caught and re-raised as
`ValueError("Failed to parse JSON response from <URL>")`. -/
def create_signed_request (URL : String) (transport : TransportOutcome) :
    PyResult (Option ResponseEnvelope) :=
  match transport with
  | .timeout => .raised (.valueError ("Failed to parse JSON response from " ++ URL))
  | .connectionError => .raised (.valueError ("Failed to parse JSON response from " ++ URL))
  | .nonJsonBody => .raised (.valueError ("Failed to parse JSON response from " ++ URL))
  | .ok response => .returned response

/-- Method `BaseAPI._get_response` from `src/kraken_api.py` (lines 396-407):
runs `_create_signed_request` then `_process_response`, but wraps both in
`except Exception: self._logger.error(...)` with no re-raise, so every
error is swallowed and the function falls through to an implicit
`return None`. -/
def get_response (URL : String) (transport : TransportOutcome) :
    PyResult (Option ResultMap) :=
  match create_signed_request URL transport with
  | .raised _ => .returned none
  | .returned response =>
    match process_response response with
    | .raised _ => .returned none
    | .returned result => .returned (some result)

/-- Value space of what `MarketData.get_ticker_information`
(`src/kraken_api.py` lines 524-542) actually returns.  `_get_response`
already hands it the unwrapped `result` object (see `process_response`,
which returns `response.get('result')`), yet line 537 indexes
`response['result']` again: on `None` the subscript raises `TypeError`,
and on the ticker result mapping — whose keys are pair names, never
`"result"` — it raises `KeyError`; the method's own `except` clause
catches either, logs, and falls through to return `None`
(`swallowedNone`).  On a success path the method returns the accumulated
LIST `tickers` built at lines 536-539 (`parsedList`), not a single
`TickerInfo`, its `-> TickerInfo` annotation notwithstanding. -/
inductive FetchedTicker where
  | swallowedNone
  | parsedList (tickers : List TickerInfo)
deriving Repr, DecidableEq

/-- Method `GridStrategy.update_price` from `src/grid.py` (lines 137-146)
composed with the real `get_ticker_information`: the fetched
`ticker_info` is `None` or a `list` (see `FetchedTicker`), and Python
attribute access `ticker_info.a` at line 140 is defined only on a
`TickerInfo` instance, so it raises `AttributeError` for either shape;
the assignments to `current_ask`/`current_bid` below it are never
reached. -/
def update_price (s : GridState) (fetched : FetchedTicker) :
    PyResult GridState :=
  match s, fetched with
  | _, .swallowedNone =>
    .raised (.attributeError "NoneType object has no attribute a")
  | _, .parsedList _ =>
    .raised (.attributeError "list object has no attribute a")

/-- The body of `update_price` under the typing its own test assumes
(`test/test_grid.py` patches `get_ticker_information` to return a single
`TickerInfo`): overwrite `current_ask` with `a[0]` and `current_bid`
with `b[0]`, leaving `rungs` unchanged — the behaviour the spec
describes, which the list-shaped return of `get_ticker_information`
prevents from ever running in the composed program.  Python list
indexing raises `IndexError` on an empty list, modelled as `none`. -/
def update_price_given_ticker (s : GridState) (ticker_info : TickerInfo) :
    Option GridState := do
  let ask ← ticker_info.a.head?
  let bid ← ticker_info.b.head?
  some { s with current_ask := ask, current_bid := bid }

/-- Method `BaseAPI._nonce` from `src/kraken_api.py` (lines 393-394):
`int(time.time() * 1000)` — the wall-clock time in seconds scaled to
milliseconds and truncated.  `time.time()` is nonnegative (seconds since
the epoch), where Python's `int()` truncation coincides with the floor. -/
def nonce (t : ℚ) : ℤ := ⌊t * 1000⌋

/-- The guard of `MarketData.get_order_book` from `src/kraken_api.py`
(lines 592-596): the Python chained comparison `1 >= count <= 500`
evaluates as `(1 >= count) and (count <= 500)`; the function raises
`ValueError` exactly when this is `true`. -/
def order_book_count_invalid (count : ℤ) : Bool :=
  decide (1 ≥ count) && decide (count ≤ 500)

/-- Validator `OrderDescription.none_to_null` from `src/kraken_api.py` (lines
254-256): `None if value == "none" else value`, applied to every field
(`@field_validator("*")`).  A field value is `none` for Python `None`,
`some s` for the string `s`. -/
def none_to_null_descr (value : Option String) : Option String :=
  if value = some "none" then none else value

/-- Validator `Order.none_to_null` from `src/kraken_api.py` (lines 285-287):
`None if value == "None" else value`, applied to every field. -/
def none_to_null_order (value : Option String) : Option String :=
  if value = some "None" then none else value

/-- Record `AssetBalance` from `src/kraken_api.py` (lines 207-209). -/
structure AssetBalance where
  name : String
  amount : ℚ
deriving Repr, DecidableEq

/-- The filtering loop of `AccountData.get_account_balance` from
`src/kraken_api.py` (lines 703-712), as the repository's own test
exercises it through a mocked `_get_response`: for each `(name, amount)`
item, append `AssetBalance(name, Decimal(amount))` only when
`Decimal(amount) > Decimal("0")` (amounts modelled as the exact
rationals their decimal strings denote). -/
def filter_positive_balances (balances : List (String × ℚ)) :
    List AssetBalance :=
  balances.foldr
    (fun item acc =>
      if 0 < item.2 then ⟨item.1, item.2⟩ :: acc else acc) []

/-- Method `AccountData.get_account_balance` from `src/kraken_api.py`
(lines 692-715), composed with what `_get_response` hands it.
`_get_response` already returns the unwrapped result mapping (see
`process_response`), yet line 705 indexes `response['result']` again
before iterating: on `None` the subscript raises `TypeError`; on the
balance mapping — whose keys are asset names — the key `"result"` is
absent and the subscript raises `KeyError`; and were an asset literally
named `"result"`, its value is an amount, not a mapping, so iterating
`.items()` over it raises as well.  Every path lands in the method's
catch-all `except`, which logs and returns `None`; the filtering loop
(`filter_positive_balances`) is unreachable. -/
def get_account_balance (response : Option (List (String × ℚ))) :
    Option (List AssetBalance) :=
  match response with
  | none => none
  | some result =>
    match result.lookup "result" with
    | none => none
    | some _ => none

/-! ## `src/kraken_api.py`: request signing (`BaseAPI._generate_headers`)

Byte strings are `List ℕ` (one entry per byte).  `str.encode()` is UTF-8;
the strings involved (paths, form-encoded bodies, base64 text) are ASCII,
where UTF-8 bytes coincide with code points.  SHA-256 and SHA-512 are
cryptographic primitives outside the program; the development is
parameterised over them (`HashFns`), and the HMAC construction that
`hmac.new(key, msg, hashlib.sha512)` performs is spelled out (RFC 2104,
block size 128 for SHA-512). -/

/-- A byte string. -/
abbrev Bytes := List ℕ

/-- Bytes of an ASCII string (`str.encode()`). -/
def strBytes (s : String) : Bytes := s.data.map Char.toNat

/-- The base64 alphabet. -/
def base64Alphabet : List Char :=
  "ABCDEFGHIJKLMNOPQRSTUVWXYZabcdefghijklmnopqrstuvwxyz0123456789+/".data

/-- Python `base64.b64encode`: encode 3-byte groups as 4 alphabet characters,
padding the final partial group with `=`. -/
def b64encode : Bytes → List Char
  | [] => []
  | [b1] =>
    let n := b1 * 65536
    [base64Alphabet.getD (n / 262144 % 64) '?',
     base64Alphabet.getD (n / 4096 % 64) '?', '=', '=']
  | [b1, b2] =>
    let n := b1 * 65536 + b2 * 256
    [base64Alphabet.getD (n / 262144 % 64) '?',
     base64Alphabet.getD (n / 4096 % 64) '?',
     base64Alphabet.getD (n / 64 % 64) '?', '=']
  | b1 :: b2 :: b3 :: rest =>
    let n := b1 * 65536 + b2 * 256 + b3
    base64Alphabet.getD (n / 262144 % 64) '?' ::
      base64Alphabet.getD (n / 4096 % 64) '?' ::
      base64Alphabet.getD (n / 64 % 64) '?' ::
      base64Alphabet.getD (n % 64) '?' :: b64encode rest

/-- Position of a character in the base64 alphabet (0 for non-members,
which `base64.b64decode` would reject; the secrets involved are valid
base64). -/
def b64charValue (c : Char) : ℕ :=
  (base64Alphabet.indexOf c) % 64

/-- Python `base64.b64decode`: decode 4-character groups back to 3 bytes,
dropping the bytes hidden by `=` padding. -/
def b64decode : List Char → Bytes
  | c1 :: c2 :: c3 :: c4 :: rest =>
    let n := b64charValue c1 * 262144 + b64charValue c2 * 4096 +
      b64charValue c3 * 64 + b64charValue c4
    if c3 = '=' then [n / 65536 % 256]
    else if c4 = '=' then [n / 65536 % 256, n / 256 % 256]
    else n / 65536 % 256 :: n / 256 % 256 :: n % 256 ::
      b64decode rest
  | _ => []

/-- Uppercase hexadecimal digit. -/
def hexDigit (n : ℕ) : Char :=
  "0123456789ABCDEF".data.getD (n % 16) '0'

/-- Is a byte in `urllib.parse.quote_plus`'s always-safe set
(ASCII letters, digits, `_`, `.`, `-`, `~`)? -/
def quoteSafe (b : ℕ) : Bool :=
  (65 ≤ b && b ≤ 90) || (97 ≤ b && b ≤ 122) || (48 ≤ b && b ≤ 57) ||
    b = 95 || b = 46 || b = 45 || b = 126

/-- Python `urllib.parse.quote_plus` on one string: safe bytes unchanged, space
becomes `+`, every other byte percent-encoded as `%XX`. -/
def quote_plus (s : String) : String :=
  ⟨(strBytes s).foldr
    (fun b acc =>
      if b = 32 then '+' :: acc
      else if quoteSafe b then Char.ofNat b :: acc
      else '%' :: hexDigit (b / 16) :: hexDigit b :: acc) []⟩

/-- Python `urllib.parse.urlencode` on an ordered mapping:
`k1=v1&k2=v2&...` with `quote_plus` applied to keys and values,
preserving the given field order. -/
def urlencode (post_data : List (String × String)) : String :=
  String.intercalate "&"
    (post_data.map fun kv => quote_plus kv.1 ++ "=" ++ quote_plus kv.2)

/-- The two hash primitives the signing path uses, kept abstract. -/
structure HashFns where
  sha256 : Bytes → Bytes
  sha512 : Bytes → Bytes

/-- The HMAC construction `hmac.new(key, msg, hashlib.sha512).digest()`
performs (RFC 2104): pad (or first hash) the key to the 128-byte SHA-512
block, XOR with the inner/outer pads, and hash twice. -/
def hmac_sha512 (H : Bytes → Bytes) (key msg : Bytes) : Bytes :=
  let key1 := if 128 < key.length then H key else key
  let key0 := key1 ++ List.replicate (128 - key1.length) 0
  let inner := H ((key0.map fun b => b ^^^ 54) ++ msg)
  H ((key0.map fun b => b ^^^ 92) ++ inner)

/-- The headers `_generate_headers` returns. -/
structure SignedHeaders where
  apiKey : String
  apiSign : String
deriving Repr, DecidableEq

/-- Method `BaseAPI._generate_headers` from `src/kraken_api.py` (lines 359-372),
with the environment's `API_SECRET`/`API_KEY` and the hash primitives as
explicit inputs.  Steps, as in the source: URL-form-encode the whole
`post_data` mapping in its given order; prepend `str(post_data["nonce"])`
(a `KeyError`, modelled as `none`, if the field is missing); SHA-256 that
byte string; prepend the URI bytes; HMAC-SHA-512 with the base64-decoded
secret; base64-encode the digest. -/
def generate_headers (h : HashFns) (api_secret api_key : String)
    (URI : String) (post_data : List (String × String)) :
    Option SignedHeaders := do
  let nonceField ← (post_data.lookup "nonce")
  let url_encoded_post_data := urlencode post_data
  let encoded := strBytes (nonceField ++ url_encoded_post_data)
  let message := strBytes URI ++ h.sha256 encoded
  let signature := hmac_sha512 h.sha512 (b64decode api_secret.data) message
  some { apiKey := api_key
         apiSign := String.mk (b64encode signature) }

/-- Modelled from the spec's §4.1 signing algorithm, for comparison with
`generate_headers`: "concatenate the decimal string form of `nonce` with
the URL-form-encoded body (fields in call-provided order)"; "hash that
byte string with a 256-bit digest"; "concatenate the request path bytes
with the digest"; "compute a keyed message authentication code of that
concatenation using a 512-bit-output algorithm and a secret key supplied
as base64"; "base64-encode the authentication code as the signature". -/
def sign_spec (h : HashFns) (secret : String) (path : String)
    (nonceValue : ℕ) (body : List (String × String)) : String :=
  String.mk (b64encode (hmac_sha512 h.sha512 (b64decode secret.data)
    (strBytes path ++
      h.sha256 (strBytes (toString nonceValue ++ urlencode body)))))

/-! ## Theorems -/

/-- C7 (code_bug evidence): the `count` guard of
`MarketData.get_order_book` raises `ValueError` exactly for `count ≤ 1` —
because the chained comparison `1 >= count <= 500` means
`1 >= count and count <= 500` — so the in-range depth `count = 1` is
rejected while the out-of-range `count = 501` is dispatched, contradicting
both the claim's interval `[1, 500]` and the code's own error message
"Must be >= 1 and <= 500.". -/
theorem order_book_count_guard_wrong :
    (∀ count : ℤ, order_book_count_invalid count = decide (count ≤ 1)) ∧
    order_book_count_invalid 1 = true ∧
    order_book_count_invalid 501 = false := by
  refine ⟨fun count => ?_, by decide, by decide⟩
  by_cases h : count ≤ 1
  · have h1 : (1 : ℤ) ≥ count := by omega
    have h2 : count ≤ 500 := by omega
    simp [order_book_count_invalid, h, h1, h2]
  · have h1 : ¬ (1 : ℤ) ≥ count := by omega
    simp [order_book_count_invalid, h, h1]

/-- C8 (counterexample): `OrderDescription.none_to_null` leaves the
sentinel string `"None"` unchanged, and `Order.none_to_null` leaves
`"none"` unchanged, so it is not the case that both sentinels are coerced
to an absent value in every field of both records. -/
theorem none_to_null_counterexample :
    none_to_null_descr (some "None") = some "None" ∧
    none_to_null_order (some "none") = some "none" := by
  constructor <;> decide

/-- C8 (amended): each validator coerces exactly one sentinel —
`OrderDescription.none_to_null` maps `"none"` (only) to an absent value
and `Order.none_to_null` maps `"None"` (only) to an absent value; every
other value passes through unchanged. -/
theorem none_to_null_single_sentinel :
    none_to_null_descr (some "none") = none ∧
    none_to_null_order (some "None") = none ∧
    (∀ v : Option String, v ≠ some "none" → none_to_null_descr v = v) ∧
    (∀ v : Option String, v ≠ some "None" → none_to_null_order v = v) := by
  refine ⟨by decide, by decide, fun v hv => ?_, fun v hv => ?_⟩ <;>
    simp [none_to_null_descr, none_to_null_order, hv]

/-- C8 witness for `none_to_null_single_sentinel`: the pass-through parts
applied at the concrete values showing each validator ignores the other
record's sentinel. -/
theorem none_to_null_single_sentinel_witness :
    (some "None" : Option String) ≠ some "none" ∧
    none_to_null_descr (some "None") = some "None" ∧
    (some "none" : Option String) ≠ some "None" ∧
    none_to_null_order (some "none") = some "none" :=
  ⟨by decide, none_to_null_single_sentinel.2.2.1 (some "None") (by decide),
   by decide, none_to_null_single_sentinel.2.2.2 (some "none") (by decide)⟩

/-- Unfolding lemma for the balance filtering loop. -/
theorem filter_positive_balances_cons (hd : String × ℚ)
    (tl : List (String × ℚ)) :
    filter_positive_balances (hd :: tl) =
      if 0 < hd.2 then ⟨hd.1, hd.2⟩ :: filter_positive_balances tl
      else filter_positive_balances tl := rfl

/-- C10 (code_bug evidence): `get_account_balance` returns `None` on
every response — the `response['result']` subscript on the
already-unwrapped result mapping always raises and the catch-all
swallows it — so the claimed filtered list is never returned; and the
filtering loop the method never reaches (the behaviour its own
`test_get_account_balance` asserts through a mocked `_get_response`)
keeps an asset exactly when its `(name, amount)` item appears in the
response with a strictly positive amount. -/
theorem get_account_balance_none_not_filtered :
    (∀ response : Option (List (String × ℚ)),
      get_account_balance response = none) ∧
    (∀ (name : String) (amount : ℚ) (balances : List (String × ℚ)),
      AssetBalance.mk name amount ∈ filter_positive_balances balances ↔
        ((name, amount) ∈ balances ∧ 0 < amount)) := by
  constructor
  · intro response
    match response with
    | none => rfl
    | some result =>
      cases h : result.lookup "result" <;>
        simp [get_account_balance, h]
  · intro name amount balances
    induction balances with
    | nil => simp [filter_positive_balances]
    | cons hd tl ih =>
      rw [filter_positive_balances_cons]
      by_cases hpos : 0 < hd.2
      · simp only [if_pos hpos, List.mem_cons, AssetBalance.mk.injEq, ih]
        constructor
        · rintro (⟨rfl, rfl⟩ | ⟨hmem, hamt⟩)
          · exact ⟨Or.inl rfl, hpos⟩
          · exact ⟨Or.inr hmem, hamt⟩
        · rintro ⟨hmem | hmem, hamt⟩
          · exact Or.inl ⟨congrArg Prod.fst hmem, congrArg Prod.snd hmem⟩
          · exact Or.inr ⟨hmem, hamt⟩
      · simp only [if_neg hpos, ih, List.mem_cons]
        constructor
        · rintro ⟨hmem, hamt⟩; exact ⟨Or.inr hmem, hamt⟩
        · rintro ⟨hmem | hmem, hamt⟩
          · cases hmem; exact absurd hamt hpos
          · exact ⟨hmem, hamt⟩

/-- C5 (counterexample): two nonce generations less than one millisecond
apart need not be strictly increasing — at clock times `0` and `1/2000`
seconds (half a millisecond apart) both nonces are `0`. -/
theorem nonce_collision_counterexample :
    (0 : ℚ) ≤ 1 / 2000 ∧ (1 / 2000 : ℚ) - 0 < 1 / 1000 ∧
      ¬ nonce 0 < nonce (1 / 2000) := by
  refine ⟨by norm_num, by norm_num, ?_⟩
  have h0 : nonce 0 = 0 := by norm_num [nonce]
  have h1 : nonce (1 / 2000) = 0 := by norm_num [nonce]
  omega

/-- C5 (amended): `int(time.time()*1000)` is non-decreasing in the clock
reading, and strictly increases only once the clock has advanced by at
least one millisecond; within the same millisecond two nonces can
coincide (see the counterexample). -/
theorem nonce_monotone :
    (∀ t1 t2 : ℚ, t1 ≤ t2 → nonce t1 ≤ nonce t2) ∧
    (∀ t1 t2 : ℚ, t1 + 1 / 1000 ≤ t2 → nonce t1 < nonce t2) := by
  constructor
  · intro t1 t2 h
    exact Int.floor_le_floor (by nlinarith)
  · intro t1 t2 h
    have hle : t1 * 1000 + 1 ≤ t2 * 1000 := by nlinarith
    have h1 : nonce t1 + 1 = ⌊t1 * 1000 + 1⌋ := by
      rw [nonce, ← Int.floor_add_one]
    have h2 : ⌊t1 * 1000 + 1⌋ ≤ nonce t2 := Int.floor_le_floor hle
    omega

/-- C5 witness for `nonce_monotone`: a full second apart, the nonce
strictly increases. -/
theorem nonce_monotone_witness :
    (0 : ℚ) + 1 / 1000 ≤ 1 ∧ nonce 0 < nonce 1 :=
  ⟨by norm_num, nonce_monotone.2 0 1 (by norm_num)⟩

/-- Helper: validation succeeds on a valid parameter set. -/
theorem validate_inputs_of_valid (bp pct vol : ℚ) (n : ℤ)
    (hbp : 0 < bp) (hpct : 0 < pct) (hvol : 0 < vol) (hn : 2 ≤ n) :
    validate_inputs bp pct vol n = true := by
  simp [validate_inputs, hbp, hpct, hvol, hn]

/-- Evaluation scheme for `decRound` at a positive value, from the
magnitude `lg = ⌊log₁₀ x⌋` and the rounded scaled coefficient `m`. -/
theorem decRound_pos_eval (x : ℚ) (hx : 0 < x) (lg m : ℤ)
    (hlog : floorLog10Q x = lg)
    (hrnd : roundHalfEven (x * (10 : ℚ) ^ (27 - lg)) = m) :
    decRound x = (m : ℚ) * (10 : ℚ) ^ (lg - 27) := by
  have hne : x ≠ 0 := ne_of_gt hx
  have hnlt : ¬ x < 0 := not_lt.mpr (le_of_lt hx)
  rw [decRound, if_neg hne]
  simp only [abs_of_pos hx, hlog, if_neg hnlt, one_mul]
  rw [show -(lg - 27) = 27 - lg by ring, hrnd]

/-- Context rounding is the identity on `1`. -/
theorem decRound_one : decRound (1 : ℚ) = 1 := by
  have h := decRound_pos_eval 1 (by norm_num) 0 (10 ^ 27)
    (by rw [floorLog10Q] ; norm_num ; decide)
    (by rw [roundHalfEven] ; norm_num)
  rw [h] ; norm_num

/-- Context rounding is the identity on `1.5`. -/
theorem decRound_three_halves : decRound (3 / 2 : ℚ) = 3 / 2 := by
  have h := decRound_pos_eval (3 / 2) (by norm_num) 0 (15 * 10 ^ 26)
    (by rw [floorLog10Q] ; norm_num ; decide)
    (by rw [roundHalfEven] ; norm_num)
  rw [h] ; norm_num

/-- Context rounding is the identity on `2`. -/
theorem decRound_two : decRound (2 : ℚ) = 2 := by
  have h := decRound_pos_eval 2 (by norm_num) 0 (2 * 10 ^ 27)
    (by rw [floorLog10Q] ; norm_num ; decide)
    (by rw [roundHalfEven] ; norm_num)
  rw [h] ; norm_num

/-- Context rounding is the identity on `3`. -/
theorem decRound_three : decRound (3 : ℚ) = 3 := by
  have h := decRound_pos_eval 3 (by norm_num) 0 (3 * 10 ^ 27)
    (by rw [floorLog10Q] ; norm_num ; decide)
    (by rw [roundHalfEven] ; norm_num)
  rw [h] ; norm_num

/-- The 41-significant-digit sum `1 + 10⁻⁴⁰` rounds to exactly `1` at
the 28-digit context. -/
theorem decRound_one_plus_tiny : decRound (1 + 1 / 10 ^ 40 : ℚ) = 1 := by
  have h := decRound_pos_eval (1 + 1 / 10 ^ 40) (by norm_num) 0 (10 ^ 27)
    (by rw [floorLog10Q] ; norm_num ; decide)
    (by rw [roundHalfEven] ; norm_num)
  rw [h] ; norm_num

/-- C1 (counterexample): with the valid parameters `base_price = 1`,
`percentage = Decimal("1E-40")`, `total_volume = 150`, `rung_count = 2`,
the context rounding collapses `1 + percentage` to exactly `1`, so the
program's ladder prices are `[1, 1]`: the exact value
`base_price * (1 + percentage) ^ 1 = 1 + 10⁻⁴⁰` differs from the stored
price `1` at rung 1, and the adjacent prices are equal instead of
strictly increasing. -/
theorem ladder_rounding_counterexample :
    validate_inputs 1 (1 / 10 ^ 40) 150 2 = true ∧
    create_rungs 1 (1 / 10 ^ 40) 150 2 =
      some (build_rungs 1 (1 / 10 ^ 40) 150 2) ∧
    (build_rungs 1 (1 / 10 ^ 40) 150 2).map Rung.price = [1, 1] ∧
    (1 : ℚ) * (1 + 1 / 10 ^ 40) ^ 1 ≠ 1 := by
  have hval : validate_inputs 1 (1 / 10 ^ 40) 150 2 = true :=
    validate_inputs_of_valid _ _ _ _ (by norm_num) (by norm_num)
      (by norm_num) (by norm_num)
  have hT : decAdd 1 (1 / 10 ^ 40 : ℚ) = 1 := by
    rw [decAdd] ; exact decRound_one_plus_tiny
  have hP0 : decPow (1 : ℚ) 0 = 1 := by
    rw [decPow] ; norm_num [decRound_one]
  have hP1 : decPow (1 : ℚ) 1 = 1 := by
    rw [decPow] ; norm_num [decRound_one]
  have hM : decMul (1 : ℚ) 1 = 1 := by
    rw [decMul] ; norm_num [decRound_one]
  refine ⟨hval, by rw [create_rungs, if_pos hval], ?_, by norm_num⟩
  rw [build_rungs]
  have hr : List.range ((2 : ℤ).toNat) = [0, 1] := rfl
  rw [hr]
  simp only [List.map_cons, List.map_nil, hT, hP0, hP1, hM]

/-- C1 (amended): for every valid parameter set the ladder always holds
exactly `rung_count` rungs, and rung `i` stores the context-rounded
evaluation of `base_price * ((1 + percentage) ** i)`; whenever the
decimal operations involved are exact at the 28-digit context — `1 +
percentage`, its powers below `rung_count`, and their products with
`base_price` — the stored prices equal `base_price * (1 + percentage)^i`
exactly, the first price is `base_price`, and adjacent prices strictly
increase. -/
theorem create_rungs_ladder_spec (bp pct vol : ℚ) (n : ℤ)
    (hbp : 0 < bp) (hpct : 0 < pct) (hvol : 0 < vol) (hn : 2 ≤ n) :
    (∃ rungs : List Rung,
      create_rungs bp pct vol n = some rungs ∧ (rungs.length : ℤ) = n) ∧
    ((decAdd 1 pct = 1 + pct) →
      (∀ i : ℕ, i < n.toNat → decPow (1 + pct) i = (1 + pct) ^ i) →
      (∀ i : ℕ, i < n.toNat →
        decMul bp ((1 + pct) ^ i) = bp * (1 + pct) ^ i) →
      LadderSpec bp pct vol n) := by
  have hsome : create_rungs bp pct vol n = some (build_rungs bp pct vol n) := by
    rw [create_rungs, if_pos (validate_inputs_of_valid bp pct vol n hbp hpct hvol hn)]
  have hlen : ((build_rungs bp pct vol n).length : ℤ) = n := by
    simp only [build_rungs, List.length_map, List.length_range]
    omega
  refine ⟨⟨build_rungs bp pct vol n, hsome, hlen⟩, ?_⟩
  intro hadd hpow hmul
  have hprice : ∀ i : ℕ, i < n.toNat →
      decMul bp (decPow (decAdd 1 pct) i) = bp * (1 + pct) ^ i := by
    intro i hi
    rw [hadd, hpow i hi, hmul i hi]
  refine ⟨build_rungs bp pct vol n, hsome, hlen, ?_, ?_, ?_⟩
  · intro i h
    have hi : i < n.toNat := by simpa [build_rungs] using h
    simp only [build_rungs, List.get_eq_getElem, List.getElem_map,
      List.getElem_range]
    exact hprice i hi
  · intro h
    have h0 : 0 < n.toNat := by simpa [build_rungs] using h
    simp only [build_rungs, List.get_eq_getElem, List.getElem_map,
      List.getElem_range]
    have hp := hprice 0 h0
    norm_num at hp
    exact hp
  · intro i h1 h2
    have hi1 : i < n.toNat := by simpa [build_rungs] using h1
    have hi2 : i + 1 < n.toNat := by simpa [build_rungs] using h2
    simp only [build_rungs, List.get_eq_getElem, List.getElem_map,
      List.getElem_range]
    show decMul bp (decPow (decAdd 1 pct) i) <
      decMul bp (decPow (decAdd 1 pct) (i + 1))
    rw [hprice i hi1, hprice (i + 1) hi2]
    have hpow0 : (0 : ℚ) < (1 + pct) ^ i := by positivity
    calc bp * (1 + pct) ^ i
        < bp * ((1 + pct) ^ i * (1 + pct)) := by
          nlinarith [mul_pos (mul_pos hbp hpow0) hpct]
      _ = bp * (1 + pct) ^ (i + 1) := by ring

/-- C1 witness for `create_rungs_ladder_spec`: at
`base_price = 2, percentage = 0.5, total_volume = 1, rung_count = 2` the
decimal operations are exact (`1.5`, `1.5¹`, `2·1.5 = 3` all fit in 28
digits), so the full ladder shape holds. -/
theorem create_rungs_ladder_spec_witness :
    ((0 : ℚ) < 2 ∧ (0 : ℚ) < 1 / 2 ∧ (0 : ℚ) < 1 ∧ (2 : ℤ) ≤ 2) ∧
    (∃ rungs : List Rung,
      create_rungs 2 (1 / 2) 1 2 = some rungs ∧ (rungs.length : ℤ) = 2) ∧
    LadderSpec 2 (1 / 2) 1 2 := by
  have hadd : decAdd 1 (1 / 2 : ℚ) = 1 + 1 / 2 := by
    rw [decAdd] ; norm_num [decRound_three_halves]
  have hpow : ∀ i : ℕ, i < (2 : ℤ).toNat →
      decPow (1 + 1 / 2 : ℚ) i = (1 + 1 / 2 : ℚ) ^ i := by
    intro i hi
    have h2 : (2 : ℤ).toNat = 2 := rfl
    rw [h2] at hi
    interval_cases i
    · rw [decPow] ; norm_num [decRound_one]
    · rw [decPow] ; norm_num [decRound_three_halves]
  have hmul : ∀ i : ℕ, i < (2 : ℤ).toNat →
      decMul 2 ((1 + 1 / 2 : ℚ) ^ i) = 2 * (1 + 1 / 2 : ℚ) ^ i := by
    intro i hi
    have h2 : (2 : ℤ).toNat = 2 := rfl
    rw [h2] at hi
    interval_cases i
    · rw [decMul] ; norm_num [decRound_two]
    · rw [decMul] ; norm_num [decRound_three]
  have H := create_rungs_ladder_spec 2 (1 / 2) 1 2 (by norm_num)
    (by norm_num) (by norm_num) (by norm_num)
  exact ⟨⟨by norm_num, by norm_num, by norm_num, by norm_num⟩,
    H.1, H.2 hadd hpow hmul⟩

/-- Helper: a constant-valued map sums to length times the constant. -/
theorem sum_map_const {α : Type} (l : List α) (c : ℚ) :
    (l.map (fun _ => c)).sum = l.length * c := by
  induction l with
  | nil => simp
  | cons a t ih =>
    simp only [List.map_cons, List.sum_cons, ih, List.length_cons]
    push_cast
    ring

/-- Helper: every rung volume is the rounded decimal quotient
`total_volume / rung_count`, so the volumes sum to
`rung_count * (total_volume / rung_count)` — which is `total_volume`
only when that division is exact. -/
theorem build_rungs_volumes_sum (bp pct vol : ℚ) (n : ℤ) :
    ((build_rungs bp pct vol n).map Rung.volume).sum =
      (n.toNat : ℚ) * decDiv vol (n : ℚ) := by
  rw [build_rungs, List.map_map]
  have hconst : (Rung.volume ∘ fun i : ℕ =>
      ({ price := decMul bp (decPow (decAdd 1 pct) i),
         volume := decDiv vol (n : ℚ),
         order := none } : Rung)) = fun _ => decDiv vol (n : ℚ) := rfl
  rw [hconst, sum_map_const, List.length_range]

/-- Python `Decimal` value of `1 / 3` under the default 28-digit context:
`0.3333333333333333333333333333`. -/
theorem decDiv_one_third :
    decDiv 1 3 = 3333333333333333333333333333 / 10 ^ 28 := by
  have habs : |(1 : ℚ) / 3| = 1 / 3 := by
    rw [abs_of_pos] ; norm_num
  have hlog : floorLog10Q (1 / 3 : ℚ) = -1 := by
    rw [floorLog10Q] ; norm_num ; decide
  have hrnd : roundHalfEven ((10000000000000000000000000000 : ℚ) / 3) =
      3333333333333333333333333333 := by
    rw [roundHalfEven] ; norm_num
  rw [decDiv]
  norm_num [habs, hlog, hrnd]

/-- Python `Decimal` value of `150 / 5`: the division is exact. -/
theorem decDiv_onefifty_five : decDiv 150 5 = 30 := by
  have habs : |(150 : ℚ) / 5| = 30 := by
    rw [abs_of_pos] <;> norm_num
  have hlog : floorLog10Q (30 : ℚ) = 1 := by
    rw [floorLog10Q] ; norm_num ; decide
  have hrnd : roundHalfEven ((3000000000000000000000000000 : ℚ)) =
      3000000000000000000000000000 := by
    rw [roundHalfEven] ; norm_num
  rw [decDiv]
  norm_num [habs, hlog, hrnd]

/-- C2 (amended): after a successful (re)generation every rung volume is
the rounded decimal quotient `total_volume / rung_count`, so the volumes
sum to `rung_count * (total_volume / rung_count)`; this equals
`total_volume` exactly whenever that `Decimal` division is exact (as in
the spec's scenario `150 / 5`), but not in general. -/
theorem rung_volume_sum (bp pct vol : ℚ) (n : ℤ)
    (hbp : 0 < bp) (hpct : 0 < pct) (hvol : 0 < vol) (hn : 2 ≤ n) :
    ∃ rungs : List Rung,
      create_rungs bp pct vol n = some rungs ∧
      (rungs.map Rung.volume).sum = (n : ℚ) * decDiv vol (n : ℚ) ∧
      (decDiv vol (n : ℚ) * (n : ℚ) = vol →
        (rungs.map Rung.volume).sum = vol) := by
  have hcast : (n.toNat : ℚ) = (n : ℚ) := by
    have h0 : ((n.toNat : ℤ) : ℚ) = ((n : ℤ) : ℚ) := by
      rw [Int.toNat_of_nonneg (by omega : (0 : ℤ) ≤ n)]
    push_cast at h0
    exact h0
  refine ⟨build_rungs bp pct vol n,
    by simp [create_rungs, validate_inputs_of_valid bp pct vol n hbp hpct hvol hn],
    ?_, ?_⟩
  · rw [build_rungs_volumes_sum, hcast]
  · intro hexact
    rw [build_rungs_volumes_sum, hcast, mul_comm]
    exact hexact

/-- C2 witness for `rung_volume_sum`: the spec's §8 scenario — volume 150
over 5 rungs splits exactly, each rung volume is 30 and the sum is
150. -/
theorem rung_volume_sum_witness :
    ((0 : ℚ) < 3000 ∧ (0 : ℚ) < 1 / 50 ∧ (0 : ℚ) < 150 ∧ (2 : ℤ) ≤ 5) ∧
    (∃ rungs : List Rung,
      create_rungs 3000 (1 / 50) 150 5 = some rungs ∧
      (rungs.map Rung.volume).sum = ((5 : ℤ) : ℚ) * decDiv 150 ((5 : ℤ) : ℚ) ∧
      (decDiv 150 ((5 : ℤ) : ℚ) * ((5 : ℤ) : ℚ) = 150 →
        (rungs.map Rung.volume).sum = 150)) :=
  ⟨⟨by norm_num, by norm_num, by norm_num, by norm_num⟩,
   rung_volume_sum 3000 (1 / 50) 150 5 (by norm_num) (by norm_num)
     (by norm_num) (by norm_num)⟩

/-- C2 (counterexample): with the valid parameters
`total_volume = 1, rung_count = 3` (base price 1, percentage 1/100), the
generated rung volumes are each `Decimal(1)/3 = 0.3333333333333333333333333333`
and sum to `0.9999999999999999999999999999 ≠ 1`, so the exact-sum
invariant fails. -/
theorem rung_volume_sum_counterexample :
    validate_inputs 1 (1 / 100) 1 3 = true ∧
    create_rungs 1 (1 / 100) 1 3 = some (build_rungs 1 (1 / 100) 1 3) ∧
    ((build_rungs 1 (1 / 100) 1 3).map Rung.volume).sum ≠ 1 := by
  have hval : validate_inputs 1 (1 / 100) 1 3 = true :=
    validate_inputs_of_valid 1 (1 / 100) 1 3 (by norm_num) (by norm_num)
      (by norm_num) (by norm_num)
  refine ⟨hval, by rw [create_rungs, if_pos hval], ?_⟩
  rw [build_rungs_volumes_sum]
  have h3 : (((3 : ℤ).toNat : ℚ)) = 3 := by
    have : (3 : ℤ).toNat = 3 := rfl
    rw [this]
    norm_num
  rw [h3]
  norm_num [decDiv_one_third]

/-- Helper: `_process_response` on a non-empty `error` array raises
`RequestException` with the comma-joined error strings. -/
theorem process_response_error_raises (env : ResponseEnvelope)
    (h : env.error ≠ []) :
    process_response (some env) =
      .raised (.requestException
        ("API error: " ++ String.intercalate ", " env.error)) := by
  cases herr : env.error with
  | nil => exact absurd herr h
  | cons a as => simp [process_response, herr]

/-- Helper: `_get_response` on a parsed envelope defers to
`_process_response` and swallows whatever it raises. -/
theorem get_response_ok_env (URL : String) (env : ResponseEnvelope) :
    get_response URL (.ok (some env)) =
      match process_response (some env) with
      | .raised _ => .returned none
      | .returned m => .returned (some m) := rfl

/-- C3 (amended): `_process_response` itself implements the claimed
three-way envelope unwrapping — non-empty `error` raises
`RequestException` (the spec's `ExchangeError`) with the joined error
strings, an absent/empty `result` with no error raises `ValueError` (the
spec's `MalformedResponseError`), and otherwise the result mapping is
returned.  But the raised error does not reach the caller of the signed
request: `_get_response` catches every exception and returns `None`. -/
theorem process_response_envelope_cases :
    (∀ env : ResponseEnvelope, env.error ≠ [] →
      process_response (some env) =
        .raised (.requestException
          ("API error: " ++ String.intercalate ", " env.error))) ∧
    (∀ env : ResponseEnvelope, env.error = [] →
      truthyResult env.result = false →
      process_response (some env) =
        .raised (.valueError "Invalid response format")) ∧
    (∀ (env : ResponseEnvelope) (m : ResultMap), env.error = [] →
      env.result = some m → m ≠ [] →
      process_response (some env) = .returned m) ∧
    (∀ (URL : String) (env : ResponseEnvelope), env.error ≠ [] →
      get_response URL (.ok (some env)) = .returned none) := by
  refine ⟨process_response_error_raises, ?_, ?_, ?_⟩
  · intro env h1 h2
    simp [process_response, h1, h2]
  · intro env m h1 h2 h3
    cases m with
    | nil => exact absurd rfl h3
    | cons p ps => simp [process_response, truthyResult, h1, h2]
  · intro URL env h
    rw [get_response_ok_env, process_response_error_raises env h]

/-- C3 witness for `process_response_envelope_cases`: the spec's own
scenario envelope `{"error": ["Invalid nonce"], "result": {}}`. -/
theorem process_response_envelope_cases_witness :
    (["Invalid nonce"] : List String) ≠ [] ∧
    process_response (some ⟨["Invalid nonce"], some ([] : ResultMap)⟩) =
      .raised (.requestException
        ("API error: " ++ String.intercalate ", " ["Invalid nonce"])) :=
  ⟨by decide,
   process_response_envelope_cases.1
     ⟨["Invalid nonce"], some ([] : ResultMap)⟩ (by decide)⟩

/-- C3 (counterexample): on the scenario envelope
`{"error": ["Invalid nonce"], "result": {}}` the signed-request
execution (`_get_response`) does not fail with the exchange error — the
exception is caught and `None` is returned to the caller. -/
theorem exchange_error_not_surfaced_counterexample :
    get_response "https://api.kraken.com/0/private/Balance"
        (.ok (some ⟨["Invalid nonce"], some ([] : ResultMap)⟩)) ≠
      .raised (.requestException "API error: Invalid nonce") ∧
    get_response "https://api.kraken.com/0/private/Balance"
        (.ok (some ⟨["Invalid nonce"], some ([] : ResultMap)⟩)) =
      .returned none := by
  constructor
  · decide
  · rfl

/-- C4 (amended): a transport-level failure (timeout, connection error,
non-JSON body) is raised inside `_create_signed_request` — as
`ValueError("Failed to parse JSON response from <URL>")`, since the
first `except RequestException` clause catches all three and the
`except Timeout` clause is dead code — but `_get_response` then catches
it and returns `None`, so the operation yields an absent value instead
of surfacing a failure to the caller. -/
theorem transport_failure_not_surfaced (URL : String) :
    create_signed_request URL .timeout =
      .raised (.valueError ("Failed to parse JSON response from " ++ URL)) ∧
    create_signed_request URL .connectionError =
      .raised (.valueError ("Failed to parse JSON response from " ++ URL)) ∧
    create_signed_request URL .nonJsonBody =
      .raised (.valueError ("Failed to parse JSON response from " ++ URL)) ∧
    get_response URL .timeout = .returned none ∧
    get_response URL .connectionError = .returned none ∧
    get_response URL .nonJsonBody = .returned none :=
  ⟨rfl, rfl, rfl, rfl, rfl, rfl⟩

/-- C4 (counterexample): on a timeout of a concrete request, the
operation returns the default value `None` to the caller and raises
nothing — neither a transport error nor even the internal `ValueError` —
contradicting "callers must observe a failure, not a default value". -/
theorem transport_failure_counterexample :
    get_response "https://api.kraken.com/0/private/Balance" .timeout =
      .returned none ∧
    get_response "https://api.kraken.com/0/private/Balance" .timeout ≠
      .raised (.valueError
        "Failed to parse JSON response from https://api.kraken.com/0/private/Balance") ∧
    get_response "https://api.kraken.com/0/private/Balance" .timeout ≠
      .raised (.timeoutError
        "Request to https://api.kraken.com/0/private/Balance timed out") := by
  refine ⟨rfl, ?_, ?_⟩ <;> decide

/-- C6 (confirmed): the signature `_generate_headers` computes is
exactly base64-encode(HMAC-SHA-512(base64-decode(secret),
path-bytes ++ SHA-256(decimal-string(nonce) ++ urlencode(body)))) with
the body fields in call-provided order (the nonce is one of the body
fields, as every caller passes it inside `post_data`).  Since the
embedding is a pure function of `(secret, path, nonce, body)`, two
invocations on identical inputs produce the same signature. -/
theorem generate_headers_signature (h : HashFns)
    (api_secret api_key URI : String)
    (post_data : List (String × String)) (nonceValue : ℕ)
    (hnonce : post_data.lookup "nonce" = some (toString nonceValue)) :
    generate_headers h api_secret api_key URI post_data =
      some { apiKey := api_key
             apiSign := sign_spec h api_secret URI nonceValue post_data } := by
  simp [generate_headers, sign_spec, hnonce]

/-- C6 witness for `generate_headers_signature`: a concrete request with
the identity maps standing in for the hash primitives. -/
theorem generate_headers_signature_witness :
    ([("nonce", "123"), ("pair", "XBTUSD")] :
        List (String × String)).lookup "nonce" = some (toString 123) ∧
    generate_headers ⟨fun b => b, fun b => b⟩ "" "key" "/0/private/Balance"
        [("nonce", "123"), ("pair", "XBTUSD")] =
      some { apiKey := "key"
             apiSign := sign_spec ⟨fun b => b, fun b => b⟩ ""
               "/0/private/Balance" 123
               [("nonce", "123"), ("pair", "XBTUSD")] } :=
  ⟨rfl,
   generate_headers_signature ⟨fun b => b, fun b => b⟩ "" "key"
     "/0/private/Balance" [("nonce", "123"), ("pair", "XBTUSD")] 123 rfl⟩

/-- C9 (code_bug evidence): on every value the real
`get_ticker_information` can hand it — `None` after the swallowed
`response['result']` error, or the list `tickers` — `update_price`
raises `AttributeError` at `ticker_info.a` and never returns an updated
state, so the claimed quote overwrite never happens in the composed
program; while under the typing its own test assumes (a single
`TickerInfo`), the body would overwrite `current_ask`/`current_bid` with
`a[0]`/`b[0]` and leave `rungs` unchanged, exactly as the claim
describes. -/
theorem update_price_never_returns :
    (∀ s : GridState, update_price s .swallowedNone =
      .raised (.attributeError "NoneType object has no attribute a")) ∧
    (∀ (s : GridState) (tickers : List TickerInfo),
      update_price s (.parsedList tickers) =
        .raised (.attributeError "list object has no attribute a")) ∧
    (∀ (s : GridState) (fetched : FetchedTicker) (s2 : GridState),
      update_price s fetched ≠ .returned s2) ∧
    (∀ (s : GridState) (ticker_info : TickerInfo) (ask bid : ℚ),
      ticker_info.a.head? = some ask → ticker_info.b.head? = some bid →
      update_price_given_ticker s ticker_info =
        some { rungs := s.rungs, current_ask := ask,
               current_bid := bid }) := by
  refine ⟨fun s => rfl, fun s tickers => rfl, ?_, ?_⟩
  · intro s fetched s2
    cases fetched <;> simp [update_price]
  · intro s ticker_info ask bid ha hb
    simp [update_price_given_ticker, ha, hb]

/-- C9 witness for `update_price_never_returns`: the intended-behaviour
part applied at a concrete synced state with one occupied rung and a
concrete ticker snapshot. -/
theorem update_price_never_returns_witness :
    ([(303 : ℚ) / 10, 1] : List ℚ).head? = some ((303 : ℚ) / 10) ∧
    ([(302 : ℚ) / 10, 1] : List ℚ).head? = some ((302 : ℚ) / 10) ∧
    update_price_given_ticker ⟨[⟨30, 2, some "TXID1"⟩], 31, 29⟩
        ⟨[(303 : ℚ) / 10, 1], [(302 : ℚ) / 10, 1]⟩ =
      some ⟨[⟨30, 2, some "TXID1"⟩], 303 / 10, 302 / 10⟩ :=
  ⟨rfl, rfl,
   update_price_never_returns.2.2.2 ⟨[⟨30, 2, some "TXID1"⟩], 31, 29⟩
     ⟨[(303 : ℚ) / 10, 1], [(302 : ℚ) / 10, 1]⟩ (303 / 10) (302 / 10)
     rfl rfl⟩
